import Mathlib

/-
  Verification development for the CoolProp configuration registry
  (include/Configuration.h): a typed, key-indexed configuration store
  with JSON import/export.

  Shallow embedding notes:
  - C++ `double` is modelled by `Rat`: the header performs no floating
    arithmetic on doubles, only storage, equality-free copying and the
    exact widening `static_cast<double>(int)`, all of which are exact
    on the values involved, so rationals are a faithful value model.
  - C++ `int` is modelled by `Int` (no arithmetic is performed).
  - The C++ member union {v_double; v_bool; v_integer} is modelled by
    three separate fields; every operation in the header reads only the
    field selected by the type tag, so the inactive fields are never
    observed. Observable content is captured by `ConfigurationItem.cell`.
  - Exceptions are modelled by explicit `Option CPError` / `Except CPError`
    results. A mutating member function of the C++ class is modelled as a
    function returning the post-state paired with an optional error; the
    post-state on the error path is the object state at the moment of the
    throw, mirroring the statement order of the C++ body.
  - rapidjson values, as used by the header, are modelled by `Json`
    restricted to the scalar kinds the code inspects (IsBool/IsInt/
    IsDouble/IsString); `jint` stands for a JSON number for which
    rapidjson answers IsInt, `jdouble` one for which it answers IsDouble.
-/

/-- The configuration key enumeration generated by CONFIGURATION_KEYS_ENUM
(Configuration.h lines 21-40), one constructor per X entry, in declaration
order. -/
inductive configuration_keys
  | NORMALIZE_GAS_CONSTANTS
  | CRITICAL_WITHIN_1UK
  | CRITICAL_SPLINES_ENABLED
  | SAVE_RAW_TABLES
  | ALTERNATIVE_TABLES_DIRECTORY
  | ALTERNATIVE_REFPROP_PATH
  | ALTERNATIVE_REFPROP_HMX_BNC_PATH
  | REFPROP_DONT_ESTIMATE_INTERACTION_PARAMETERS
  | MAXIMUM_TABLE_DIRECTORY_SIZE_IN_GB
  | DONT_CHECK_PROPERTY_LIMITS
  | HENRYS_LAW_TO_GENERATE_VLE_GUESSES
  | PHASE_ENVELOPE_STARTING_PRESSURE_PA
deriving DecidableEq, Fintype

/-- The ConfigurationDataTypes enumeration (Configuration.h lines 43-50). -/
inductive ConfigurationDataTypes
  | CONFIGURATION_NOT_DEFINED_TYPE
  | CONFIGURATION_BOOL_TYPE
  | CONFIGURATION_DOUBLE_TYPE
  | CONFIGURATION_INTEGER_TYPE
  | CONFIGURATION_STRING_TYPE
  | CONFIGURATION_ENDOFLIST_TYPE
deriving DecidableEq, Fintype

/-- A type tag denoting an actual value kind (not a sentinel). -/
def ConfigurationDataTypes.isValueType : ConfigurationDataTypes → Bool
  | .CONFIGURATION_BOOL_TYPE => true
  | .CONFIGURATION_INTEGER_TYPE => true
  | .CONFIGURATION_DOUBLE_TYPE => true
  | .CONFIGURATION_STRING_TYPE => true
  | _ => false

namespace CoolProp

/-- Error kinds. The header itself only ever throws `ValueError` (from
Exceptions.h); the remaining constructors are the error kinds named by the
specification (TypeMismatch, NotFound, InternalError, ParseError) and are
included so that claims about the distinctness of error kinds can be
stated. -/
inductive CPError
  | ValueError (msg : String)
  | TypeMismatch (msg : String)
  | NotFound (msg : String)
  | InternalError (msg : String)
  | ParseError (msg : String)
deriving DecidableEq

/-- Whether an error is of the TypeMismatch kind. -/
def CPError.isTypeMismatch : CPError → Bool
  | .TypeMismatch _ => true
  | _ => false

/-- Whether an error is of the NotFound kind. -/
def CPError.isNotFound : CPError → Bool
  | .NotFound _ => true
  | _ => false

/-- Whether an error is of the InternalError kind. -/
def CPError.isInternalError : CPError → Bool
  | .InternalError _ => true
  | _ => false

/-- Whether an error is of the ValueError kind. -/
def CPError.isValueError : CPError → Bool
  | .ValueError _ => true
  | _ => false

/-- A typed C++ value as passed to the overloaded ConfigurationItem
constructors and setters: exactly one of bool, int, double, string.
Also used for the catalog's default values, whose C++ literal type
selects the constructor overload. -/
inductive TypedValue
  | tbool (b : Bool)
  | tint (n : Int)
  | tdouble (d : Rat)
  | tstring (s : String)
deriving DecidableEq

/-- The type tag the C++ constructor overload for this value assigns. -/
def TypedValue.typeOf : TypedValue → ConfigurationDataTypes
  | .tbool _ => .CONFIGURATION_BOOL_TYPE
  | .tint _ => .CONFIGURATION_INTEGER_TYPE
  | .tdouble _ => .CONFIGURATION_DOUBLE_TYPE
  | .tstring _ => .CONFIGURATION_STRING_TYPE

/-- A rapidjson value, restricted to the scalar kinds the header inspects.
`jnull` stands for any JSON value that is none of bool/int/double/string
(null, object, array, or a number outside int range). -/
inductive Json
  | jnull
  | jbool (b : Bool)
  | jint (n : Int)
  | jdouble (d : Rat)
  | jstring (s : String)
deriving DecidableEq

/-- rapidjson IsBool. -/
def Json.IsBool : Json → Bool
  | .jbool _ => true
  | _ => false

/-- rapidjson IsInt. -/
def Json.IsInt : Json → Bool
  | .jint _ => true
  | _ => false

/-- rapidjson IsDouble. -/
def Json.IsDouble : Json → Bool
  | .jdouble _ => true
  | _ => false

/-- rapidjson IsString. -/
def Json.IsString : Json → Bool
  | .jstring _ => true
  | _ => false

/-- rapidjson IsNumber: an int or a double. -/
def Json.IsNumber (j : Json) : Bool := j.IsInt || j.IsDouble

/-- rapidjson GetBool; total model, only ever used after an IsBool check. -/
def Json.GetBool : Json → Bool
  | .jbool b => b
  | _ => false

/-- rapidjson GetInt; total model, only ever used after an IsInt check. -/
def Json.GetInt : Json → Int
  | .jint n => n
  | _ => 0

/-- rapidjson GetDouble; total model, only used after an IsDouble check. -/
def Json.GetDouble : Json → Rat
  | .jdouble d => d
  | _ => 0

/-- rapidjson GetString; total model, only used after an IsString check. -/
def Json.GetString : Json → String
  | .jstring s => s
  | _ => ""

/-- Modelled from the spec: `cpjson::to_string` lives in
rapidjson_include.h, which is not part of the supplied core; the spec only
requires that the rejected JSON fragment be rendered as text. It serializes
a scalar JSON value to its textual form. -/
def cpjsonToString : Json → String
  | .jnull => "null"
  | .jbool b => if b then "true" else "false"
  | .jint n => toString n
  | .jdouble d => toString d
  | .jstring s => s

/-- Modelled from the spec: `config_key_to_string` is declared in
Configuration.h (line 56) but defined in Configuration.cpp, which is not
part of the supplied sources; per spec section 4.1 it is the 1-1 mapping
from each key to its canonical string name, the name column of the
catalog table. -/
def config_key_to_string : configuration_keys → String
  | .NORMALIZE_GAS_CONSTANTS => "NORMALIZE_GAS_CONSTANTS"
  | .CRITICAL_WITHIN_1UK => "CRITICAL_WITHIN_1UK"
  | .CRITICAL_SPLINES_ENABLED => "CRITICAL_SPLINES_ENABLED"
  | .SAVE_RAW_TABLES => "SAVE_RAW_TABLES"
  | .ALTERNATIVE_TABLES_DIRECTORY => "ALTERNATIVE_TABLES_DIRECTORY"
  | .ALTERNATIVE_REFPROP_PATH => "ALTERNATIVE_REFPROP_PATH"
  | .ALTERNATIVE_REFPROP_HMX_BNC_PATH => "ALTERNATIVE_REFPROP_HMX_BNC_PATH"
  | .REFPROP_DONT_ESTIMATE_INTERACTION_PARAMETERS =>
      "REFPROP_DONT_ESTIMATE_INTERACTION_PARAMETERS"
  | .MAXIMUM_TABLE_DIRECTORY_SIZE_IN_GB =>
      "MAXIMUM_TABLE_DIRECTORY_SIZE_IN_GB"
  | .DONT_CHECK_PROPERTY_LIMITS => "DONT_CHECK_PROPERTY_LIMITS"
  | .HENRYS_LAW_TO_GENERATE_VLE_GUESSES =>
      "HENRYS_LAW_TO_GENERATE_VLE_GUESSES"
  | .PHASE_ENVELOPE_STARTING_PRESSURE_PA =>
      "PHASE_ENVELOPE_STARTING_PRESSURE_PA"

/-- One entry in configuration (class ConfigurationItem, Configuration.h
lines 66-180). The C++ union of v_double/v_bool/v_integer is split into
fields; only the field selected by `type` is ever read. -/
structure ConfigurationItem where
  type : ConfigurationDataTypes
  v_double : Rat
  v_bool : Bool
  v_integer : Int
  v_string : String
  key : configuration_keys
deriving DecidableEq

namespace ConfigurationItem

/-- The overloaded ConfigurationItem constructors (Configuration.h lines
77-95): the type tag is inferred from the C++ type of the supplied value.
Union members not selected by the tag are given zero values; they are
never read by any operation. -/
def construct (key : configuration_keys) : TypedValue → ConfigurationItem
  | .tbool val =>
    { key := key, type := .CONFIGURATION_BOOL_TYPE, v_bool := val,
      v_integer := 0, v_double := 0, v_string := "" }
  | .tint val =>
    { key := key, type := .CONFIGURATION_INTEGER_TYPE, v_bool := false,
      v_integer := val, v_double := 0, v_string := "" }
  | .tdouble val =>
    { key := key, type := .CONFIGURATION_DOUBLE_TYPE, v_bool := false,
      v_integer := 0, v_double := val, v_string := "" }
  | .tstring val =>
    { key := key, type := .CONFIGURATION_STRING_TYPE, v_bool := false,
      v_integer := 0, v_double := 0, v_string := val }

/-- check_data_type (Configuration.h lines 166-170): throws
ValueError("type does not match") when the requested type differs from the
item's tag. -/
def check_data_type (it : ConfigurationItem) (t : ConfigurationDataTypes) :
    Option CPError :=
  if t ≠ it.type then some (.ValueError "type does not match") else none

/-- operator bool (Configuration.h line 71). -/
def cast_bool (it : ConfigurationItem) : Except CPError Bool :=
  match it.check_data_type .CONFIGURATION_BOOL_TYPE with
  | some e => .error e
  | none => .ok it.v_bool

/-- operator double (Configuration.h line 73). -/
def cast_double (it : ConfigurationItem) : Except CPError Rat :=
  match it.check_data_type .CONFIGURATION_DOUBLE_TYPE with
  | some e => .error e
  | none => .ok it.v_double

/-- operator std::string (Configuration.h line 75). -/
def cast_string (it : ConfigurationItem) : Except CPError String :=
  match it.check_data_type .CONFIGURATION_STRING_TYPE with
  | some e => .error e
  | none => .ok it.v_string

/-- set_bool (Configuration.h lines 96-99). Returns post-state and
optional error; on the error path the state is the pre-state, as the C++
throws before assigning. -/
def set_bool (it : ConfigurationItem) (val : Bool) :
    ConfigurationItem × Option CPError :=
  match it.check_data_type .CONFIGURATION_BOOL_TYPE with
  | some e => (it, some e)
  | none => ({ it with v_bool := val }, none)

/-- set_integer (Configuration.h lines 100-103). -/
def set_integer (it : ConfigurationItem) (val : Int) :
    ConfigurationItem × Option CPError :=
  match it.check_data_type .CONFIGURATION_INTEGER_TYPE with
  | some e => (it, some e)
  | none => ({ it with v_integer := val }, none)

/-- set_double (Configuration.h lines 104-107). -/
def set_double (it : ConfigurationItem) (val : Rat) :
    ConfigurationItem × Option CPError :=
  match it.check_data_type .CONFIGURATION_DOUBLE_TYPE with
  | some e => (it, some e)
  | none => ({ it with v_double := val }, none)

/-- set_string (Configuration.h lines 108-111). -/
def set_string (it : ConfigurationItem) (val : String) :
    ConfigurationItem × Option CPError :=
  match it.check_data_type .CONFIGURATION_STRING_TYPE with
  | some e => (it, some e)
  | none => ({ it with v_string := val }, none)

/-- get_key (Configuration.h lines 113-115). -/
def get_key (it : ConfigurationItem) : configuration_keys := it.key

/-- Dispatch of a typed C++ write to the overloaded setter the C++
compiler would select for the value's type. -/
def write (it : ConfigurationItem) : TypedValue → ConfigurationItem × Option CPError
  | .tbool b => it.set_bool b
  | .tint n => it.set_integer n
  | .tdouble d => it.set_double d
  | .tstring s => it.set_string s

/-- add_to_json (Configuration.h lines 118-146): converts the item to a
named JSON member appended to the output object; the member's name is the
key's canonical string and its value mirrors the type tag. The sentinel
tags throw a default-constructed ValueError (empty message). -/
def add_to_json (it : ConfigurationItem) : Except CPError (String × Json) :=
  let name_string := config_key_to_string it.key
  match it.type with
  | .CONFIGURATION_BOOL_TYPE => .ok (name_string, .jbool it.v_bool)
  | .CONFIGURATION_INTEGER_TYPE => .ok (name_string, .jint it.v_integer)
  | .CONFIGURATION_DOUBLE_TYPE => .ok (name_string, .jdouble it.v_double)
  | .CONFIGURATION_STRING_TYPE => .ok (name_string, .jstring it.v_string)
  | .CONFIGURATION_ENDOFLIST_TYPE => .error (.ValueError "")
  | .CONFIGURATION_NOT_DEFINED_TYPE => .error (.ValueError "")

/-- set_from_json (Configuration.h lines 147-162). Validation of the JSON
value's type precedes the assignment in every branch, exactly as in the
C++ statement order; a failing branch returns the unmodified pre-state
alongside the error. -/
def set_from_json (it : ConfigurationItem) (val : Json) :
    ConfigurationItem × Option CPError :=
  match it.type with
  | .CONFIGURATION_BOOL_TYPE =>
    if !val.IsBool then (it, some (.ValueError "Input is not boolean"))
    else ({ it with v_bool := val.GetBool }, none)
  | .CONFIGURATION_INTEGER_TYPE =>
    if !val.IsInt then (it, some (.ValueError "Input is not integer"))
    else ({ it with v_integer := val.GetInt }, none)
  | .CONFIGURATION_DOUBLE_TYPE =>
    if !val.IsDouble && !val.IsInt then
      (it, some (.ValueError ("Input [" ++ cpjsonToString val ++
        "] is not double (or something that can be cast to double)")))
    else if val.IsDouble then ({ it with v_double := val.GetDouble }, none)
    else ({ it with v_double := (val.GetInt : Rat) }, none)
  | .CONFIGURATION_STRING_TYPE =>
    if !val.IsString then (it, some (.ValueError "Input is not string"))
    else ({ it with v_string := val.GetString }, none)
  | .CONFIGURATION_ENDOFLIST_TYPE => (it, some (.ValueError ""))
  | .CONFIGURATION_NOT_DEFINED_TYPE => (it, some (.ValueError ""))

end ConfigurationItem

/-- The static key catalog generated by the CONFIGURATION_KEYS_ENUM X-macro
(Configuration.h lines 21-33): each entry is the key together with its
default value, whose C++ literal type (bool / double / const char*)
selects the ConfigurationItem constructor overload. The description
strings play no part in any operation modelled here and are elided. -/
def catalog : List (configuration_keys × TypedValue) :=
  [ (.NORMALIZE_GAS_CONSTANTS, .tbool true),
    (.CRITICAL_WITHIN_1UK, .tbool true),
    (.CRITICAL_SPLINES_ENABLED, .tbool true),
    (.SAVE_RAW_TABLES, .tbool false),
    (.ALTERNATIVE_TABLES_DIRECTORY, .tstring ""),
    (.ALTERNATIVE_REFPROP_PATH, .tstring ""),
    (.ALTERNATIVE_REFPROP_HMX_BNC_PATH, .tstring ""),
    (.REFPROP_DONT_ESTIMATE_INTERACTION_PARAMETERS, .tbool false),
    (.MAXIMUM_TABLE_DIRECTORY_SIZE_IN_GB, .tdouble 1),
    (.DONT_CHECK_PROPERTY_LIMITS, .tbool false),
    (.HENRYS_LAW_TO_GENERATE_VLE_GUESSES, .tbool false),
    (.PHASE_ENVELOPE_STARTING_PRESSURE_PA, .tdouble 100) ]

/-- The default value the catalog declares for a key (total: every key has
exactly one catalog entry). -/
def catalogDefault (k : configuration_keys) : Option TypedValue :=
  (catalog.find? (fun e => e.1 == k)).map (fun e => e.2)

/-- Modelled from the spec: `key_of(name)`, spec section 4.1 — the inverse
translation from a canonical string name to its key, `none` for an
unrecognized name; its implementation lives in Configuration.cpp, which is
not part of the supplied sources. -/
def config_string_to_key (s : String) : Option configuration_keys :=
  if s = "NORMALIZE_GAS_CONSTANTS" then some .NORMALIZE_GAS_CONSTANTS
  else if s = "CRITICAL_WITHIN_1UK" then some .CRITICAL_WITHIN_1UK
  else if s = "CRITICAL_SPLINES_ENABLED" then some .CRITICAL_SPLINES_ENABLED
  else if s = "SAVE_RAW_TABLES" then some .SAVE_RAW_TABLES
  else if s = "ALTERNATIVE_TABLES_DIRECTORY" then
    some .ALTERNATIVE_TABLES_DIRECTORY
  else if s = "ALTERNATIVE_REFPROP_PATH" then some .ALTERNATIVE_REFPROP_PATH
  else if s = "ALTERNATIVE_REFPROP_HMX_BNC_PATH" then
    some .ALTERNATIVE_REFPROP_HMX_BNC_PATH
  else if s = "REFPROP_DONT_ESTIMATE_INTERACTION_PARAMETERS" then
    some .REFPROP_DONT_ESTIMATE_INTERACTION_PARAMETERS
  else if s = "MAXIMUM_TABLE_DIRECTORY_SIZE_IN_GB" then
    some .MAXIMUM_TABLE_DIRECTORY_SIZE_IN_GB
  else if s = "DONT_CHECK_PROPERTY_LIMITS" then
    some .DONT_CHECK_PROPERTY_LIMITS
  else if s = "HENRYS_LAW_TO_GENERATE_VLE_GUESSES" then
    some .HENRYS_LAW_TO_GENERATE_VLE_GUESSES
  else if s = "PHASE_ENVELOPE_STARTING_PRESSURE_PA" then
    some .PHASE_ENVELOPE_STARTING_PRESSURE_PA
  else none

/-- The std::map<configuration_keys, ConfigurationItem>, modelled as an
association list ordered by insertion (set_defaults inserts in enum order,
which coincides with std::map key order). -/
abbrev ItemMap := List (configuration_keys × ConfigurationItem)

/-- std::map::find. -/
def mapFind : ItemMap → configuration_keys → Option ConfigurationItem
  | [], _ => none
  | kv :: rest, k => if kv.1 = k then some kv.2 else mapFind rest k

/-- std::map::insert of a pair: a no-op when the key is already present
(std::map::insert never overwrites). -/
def mapInsert (m : ItemMap) (k : configuration_keys)
    (v : ConfigurationItem) : ItemMap :=
  if (mapFind m k).isSome then m else m ++ [(k, v)]

/-- In-place mutation of the mapped item found at a key (writing through
the reference returned by std::map::find). -/
def mapReplace : ItemMap → configuration_keys → ConfigurationItem → ItemMap
  | [], _, _ => []
  | kv :: rest, k, v =>
    if kv.1 = k then (kv.1, v) :: rest else kv :: mapReplace rest k v

/-- class Configuration (Configuration.h lines 182-226). -/
structure Configuration where
  items : ItemMap
deriving DecidableEq

namespace Configuration

/-- get_item (Configuration.h lines 192-203): throws
ValueError("invalid item") when the key is absent from the map. -/
def get_item (c : Configuration) (key : configuration_keys) :
    Except CPError ConfigurationItem :=
  match mapFind c.items key with
  | some it => .ok it
  | none => .error (.ValueError "invalid item")

/-- add_item (Configuration.h lines 205-209): inserts the
(item.get_key(), item) pair; std::map::insert makes a duplicate key a
no-op. -/
def add_item (c : Configuration) (item : ConfigurationItem) : Configuration :=
  { items := mapInsert c.items item.get_key item }

/-- set_defaults (Configuration.h lines 215-225): the X-macro expands to
one add_item(ConfigurationItem(Enum, Default)) call per catalog entry, in
declaration order. -/
def set_defaults (c : Configuration) : Configuration :=
  catalog.foldl (fun acc e => acc.add_item (ConfigurationItem.construct e.1 e.2)) c

/-- The Configuration constructor (Configuration.h line 188): an empty map
followed by set_defaults(). -/
def fresh : Configuration := Configuration.set_defaults { items := [] }

end Configuration

/-- The observable content of an item: the representation selected by the
type tag. Inactive union members are not observable in the C++ object. -/
inductive CellValue
  | cbool (b : Bool)
  | cint (n : Int)
  | cdouble (d : Rat)
  | cstring (s : String)
  | cnone
deriving DecidableEq

/-- The observable (key, type tag, active value) content of an item. -/
def ConfigurationItem.cell (it : ConfigurationItem) :
    configuration_keys × ConfigurationDataTypes × CellValue :=
  (it.key, it.type,
    match it.type with
    | .CONFIGURATION_BOOL_TYPE => .cbool it.v_bool
    | .CONFIGURATION_INTEGER_TYPE => .cint it.v_integer
    | .CONFIGURATION_DOUBLE_TYPE => .cdouble it.v_double
    | .CONFIGURATION_STRING_TYPE => .cstring it.v_string
    | _ => .cnone)

/-- Modelled from the spec: `set_config_bool` is declared in
Configuration.h (line 249) but defined in Configuration.cpp, which is not
part of the supplied sources; per spec section 4.3 it delegates to
`get(key).write(value)` on the process-wide registry. A thrown error
leaves the registry unchanged. -/
def set_config_bool (c : Configuration) (key : configuration_keys)
    (val : Bool) : Configuration × Option CPError :=
  match c.get_item key with
  | .error e => (c, some e)
  | .ok it =>
    match it.set_bool val with
    | (_, some e) => (c, some e)
    | (it2, none) => ({ items := mapReplace c.items key it2 }, none)

/-- Modelled from the spec: `set_config_double` (Configuration.h line 251,
defined in the absent Configuration.cpp); per spec section 4.3 it
delegates to `get(key).write(value)`. -/
def set_config_double (c : Configuration) (key : configuration_keys)
    (val : Rat) : Configuration × Option CPError :=
  match c.get_item key with
  | .error e => (c, some e)
  | .ok it =>
    match it.set_double val with
    | (_, some e) => (c, some e)
    | (it2, none) => ({ items := mapReplace c.items key it2 }, none)

/-- Modelled from the spec: `set_config_string` (Configuration.h line 253,
defined in the absent Configuration.cpp); per spec section 4.3 it
delegates to `get(key).write(value)`. -/
def set_config_string (c : Configuration) (key : configuration_keys)
    (val : String) : Configuration × Option CPError :=
  match c.get_item key with
  | .error e => (c, some e)
  | .ok it =>
    match it.set_string val with
    | (_, some e) => (c, some e)
    | (it2, none) => ({ items := mapReplace c.items key it2 }, none)

/-- One call to the typed-setter facade (which offers bool, double and
string setters only — Configuration.h lines 248-253). -/
inductive ConfigWrite
  | wbool (k : configuration_keys) (b : Bool)
  | wdouble (k : configuration_keys) (d : Rat)
  | wstring (k : configuration_keys) (s : String)

/-- Apply one facade write; a failed write leaves the registry unchanged,
as the facade rethrows before any mutation. -/
def applyWrite (c : Configuration) : ConfigWrite → Configuration
  | .wbool k b => (set_config_bool c k b).1
  | .wdouble k d => (set_config_double c k d).1
  | .wstring k s => (set_config_string c k s).1

/-- Apply a sequence of facade writes. -/
def applyWrites (c : Configuration) (ws : List ConfigWrite) : Configuration :=
  ws.foldl applyWrite c

/-- Modelled from the spec: `export_json` (spec section 4.3 and
get_config_as_json, Configuration.h line 239, defined in the absent
Configuration.cpp): one JSON member per registry entry, produced by
add_to_json, in map order. The serialization of the member list to JSON
text is the external rapidjson writer (out of scope per spec section 1),
so the document is modelled as its member list. -/
def exportItems : ItemMap → Except CPError (List (String × Json))
  | [] => .ok []
  | kv :: rest =>
    match kv.2.add_to_json with
    | .error e => .error e
    | .ok member =>
      match exportItems rest with
      | .error e => .error e
      | .ok members => .ok (member :: members)

/-- The export of a whole registry: one member per entry, in map order. -/
def Configuration.export_json (c : Configuration) :
    Except CPError (List (String × Json)) :=
  exportItems c.items

/-- Modelled from the spec: `import_json` (spec section 4.3 and
set_config_json, Configuration.h line 256, defined in the absent
Configuration.cpp): for each member, resolve the name through key_of
(ValueError on an unknown name), locate the registry item, and call
set_from_json, propagating its error; parsing of JSON text into the
member list is the external rapidjson parser (out of scope per spec
section 1). A failing member aborts the walk with members before it
already applied (spec section 7 allows fail-fast per member). -/
def Configuration.import_json (c : Configuration) :
    List (String × Json) → Configuration × Option CPError
  | [] => (c, none)
  | (name, jval) :: rest =>
    match config_string_to_key name with
    | none => (c, some (.ValueError ("Unable to match the key " ++ name)))
    | some k =>
      match c.get_item k with
      | .error e => (c, some e)
      | .ok it =>
        match it.set_from_json jval with
        | (_, some e) => (c, some e)
        | (it2, none) =>
          Configuration.import_json { items := mapReplace c.items k it2 } rest

/-- Whether `lead` is an initial segment of the second list. -/
def leadsChars : List Char → List Char → Bool
  | [], _ => true
  | _ :: _, [] => false
  | a :: as, b :: bs => a = b && leadsChars as bs

/-- Whether `sub` occurs as a contiguous run inside the second list. -/
def occursIn (sub : List Char) : List Char → Bool
  | [] => leadsChars sub []
  | c :: cs => leadsChars sub (c :: cs) || occursIn sub cs

/-- Whether `sub` occurs as a substring of `s`. -/
def strContains (s sub : String) : Bool := occursIn sub.toList s.toList

/-- The per-entry skeleton of a registry: map key, item key and item type
tag of every entry, in order — everything about a registry except the
stored values. -/
def shape (c : Configuration) :
    List (configuration_keys × configuration_keys × ConfigurationDataTypes) :=
  c.items.map (fun kv => (kv.1, kv.2.key, kv.2.type))

/-- Whether a JSON value's kind mirrors a type tag, in the sense of spec
section 4.2: bool to boolean, int to number, double to number, string to
string. -/
def mirrorsTag : ConfigurationDataTypes → Json → Bool
  | .CONFIGURATION_BOOL_TYPE, j => j.IsBool
  | .CONFIGURATION_INTEGER_TYPE, j => j.IsNumber
  | .CONFIGURATION_DOUBLE_TYPE, j => j.IsNumber
  | .CONFIGURATION_STRING_TYPE, j => j.IsString
  | _, _ => false

/-- The written value is returned by the next matching-type read, for the
types that have a cast operator (bool, double, string — the class has no
integer cast operator); an integer write is observed through the stored
representation. -/
def readsBack (post : ConfigurationItem) : TypedValue → Prop
  | .tbool b => post.cast_bool = .ok b
  | .tdouble d => post.cast_double = .ok d
  | .tstring s => post.cast_string = .ok s
  | .tint n => post.v_integer = n

/-- Whether a computation failed with a NotFound-kind error. -/
def failedNotFound {α : Type} : Except CPError α → Bool
  | .error e => e.isNotFound
  | .ok _ => false

/-- Whether a computation failed with an InternalError-kind error. -/
def failedInternal {α : Type} : Except CPError α → Bool
  | .error e => e.isInternalError
  | .ok _ => false

/-- The freshly constructed item for the bool-typed key
NORMALIZE_GAS_CONSTANTS (default true). -/
def boolItem : ConfigurationItem :=
  ConfigurationItem.construct .NORMALIZE_GAS_CONSTANTS (.tbool true)

/-- The freshly constructed item for the double-typed key
MAXIMUM_TABLE_DIRECTORY_SIZE_IN_GB (default 1.0). -/
def doubleItem : ConfigurationItem :=
  ConfigurationItem.construct .MAXIMUM_TABLE_DIRECTORY_SIZE_IN_GB (.tdouble 1)

/-- An item carrying the undefined sentinel tag: not constructible through
the public constructors, used to exercise the sentinel branches of
add_to_json and set_from_json. -/
def undefinedItem : ConfigurationItem :=
  { type := .CONFIGURATION_NOT_DEFINED_TYPE, v_double := 0, v_bool := false,
    v_integer := 0, v_string := "", key := .NORMALIZE_GAS_CONSTANTS }

end CoolProp

deriving instance DecidableEq for Except

open CoolProp

/-! Helper lemmas shared by the claim theorems. -/

/-- The constructor stores the supplied key unchanged. -/
theorem construct_key (k : configuration_keys) (v : TypedValue) :
    (ConfigurationItem.construct k v).get_key = k := by
  cases v <;> rfl

/-- The constructor assigns the tag selected by the value's C++ type. -/
theorem construct_type (k : configuration_keys) (v : TypedValue) :
    (ConfigurationItem.construct k v).type = v.typeOf := by
  cases v <;> rfl

/-- add_item is the identity when the item's key is already mapped. -/
theorem add_item_noop (c : Configuration) (item : ConfigurationItem)
    (h : (mapFind c.items item.get_key).isSome) : c.add_item item = c := by
  simp [Configuration.add_item, mapInsert, h]

/-- Folding default insertions over a registry that already maps every
key leaves it unchanged. -/
theorem foldl_add_item_fixed (l : List (configuration_keys × TypedValue)) :
    ∀ c : Configuration, (∀ k, (mapFind c.items k).isSome) →
      l.foldl (fun acc e => acc.add_item (ConfigurationItem.construct e.1 e.2)) c = c := by
  induction l with
  | nil => intro c _; rfl
  | cons e rest ih =>
    intro c h
    have hstep : c.add_item (ConfigurationItem.construct e.1 e.2) = c :=
      add_item_noop c _ (by rw [construct_key]; exact h e.1)
    simpa [hstep] using ih c h

/-- C1: for every key in the Key Catalog, a freshly constructed
Configuration (whose constructor runs set_defaults) contains an item for
that key: get_item succeeds, and the returned item's type tag matches the
type of that key's declared default value in the catalog table (bool
defaults yield CONFIGURATION_BOOL_TYPE, double defaults
CONFIGURATION_DOUBLE_TYPE, string defaults CONFIGURATION_STRING_TYPE). -/
theorem C1_catalog_totality :
    ∀ k : configuration_keys,
      ∃ it : ConfigurationItem,
        Configuration.fresh.get_item k = .ok it ∧
        (catalogDefault k).map TypedValue.typeOf = some it.type := by
  intro k; cases k <;> exact ⟨_, rfl, rfl⟩

/-- C5: whenever set_from_json or a typed write fails for an item, the
item's stored value and type tag are exactly as they were before the
call: validation of the incoming value completes before any assignment,
so no half-written state is observable. -/
theorem C5_atomic_failed_update :
    ∀ it : ConfigurationItem,
      (∀ j : Json,
        ((it.set_from_json j).2).isSome → (it.set_from_json j).1 = it) ∧
      (∀ v : TypedValue,
        ((it.write v).2).isSome → (it.write v).1 = it) := by
  intro it
  obtain ⟨t, vd, vb, vi, vs, k⟩ := it
  constructor
  · intro j
    cases t <;> cases j <;>
      simp [ConfigurationItem.set_from_json, Json.IsBool, Json.IsInt,
        Json.IsDouble, Json.IsString]
  · intro v
    cases t <;> cases v <;>
      simp [ConfigurationItem.write, ConfigurationItem.set_bool,
        ConfigurationItem.set_integer, ConfigurationItem.set_double,
        ConfigurationItem.set_string, ConfigurationItem.check_data_type]

/-- Witness for C5: the failed JSON update of the fresh
NORMALIZE_GAS_CONSTANTS item by a non-boolean value leaves it unchanged. -/
theorem C5_witness :
    ((boolItem.set_from_json .jnull).1 = boolItem) ∧
    ((boolItem.write (.tdouble 1)).1 = boolItem) :=
  ⟨(C5_atomic_failed_update boolItem).1 .jnull (by decide),
   (C5_atomic_failed_update boolItem).2 (.tdouble 1) (by decide)⟩

/-- C7 counterexample: on a registry whose map lacks the key, get_item
fails with ValueError("invalid item"), which is not an error of the
distinct NotFound kind claimed. -/
theorem C7_counterexample :
    (Configuration.mk []).get_item .NORMALIZE_GAS_CONSTANTS
      = .error (.ValueError "invalid item") ∧
    failedNotFound
      ((Configuration.mk []).get_item .NORMALIZE_GAS_CONSTANTS) = false := by
  decide

/-- C7 amended: registry lookup of an absent key fails with
ValueError("invalid item") — the header has no distinct NotFound error
kind; every key not present in the items map makes get_item throw that
ValueError rather than returning an item or failing some other way. -/
theorem C7_absent_key_value_error :
    ∀ (c : Configuration) (k : configuration_keys),
      mapFind c.items k = none →
      c.get_item k = .error (.ValueError "invalid item") := by
  intro c k h
  simp [Configuration.get_item, h]

/-- Witness for C7 amended, on the empty map. -/
theorem C7_witness :
    (Configuration.mk []).get_item .SAVE_RAW_TABLES
      = .error (.ValueError "invalid item") :=
  C7_absent_key_value_error (Configuration.mk []) .SAVE_RAW_TABLES (by decide)

/-- C9: duplicate-key insertion is first-insertion-wins: add_item on a
key already present leaves the registry exactly unchanged (std::map
insert is a no-op on duplicates), and consequently running set_defaults a
second time on a registry that already maps every key changes nothing, so
modified values are not overwritten. -/
theorem C9_first_insertion_wins :
    (∀ (c : Configuration) (item : ConfigurationItem),
      (mapFind c.items item.get_key).isSome → c.add_item item = c) ∧
    (∀ c : Configuration,
      (∀ k, (mapFind c.items k).isSome) → c.set_defaults = c) := by
  refine ⟨add_item_noop, fun c h => ?_⟩
  exact foldl_add_item_fixed catalog c h

/-- Witness for C9 at the fresh registry, which maps every key. -/
theorem C9_witness :
    (Configuration.fresh.add_item
      (ConfigurationItem.construct .SAVE_RAW_TABLES (.tbool true))
      = Configuration.fresh) ∧
    Configuration.fresh.set_defaults = Configuration.fresh :=
  ⟨C9_first_insertion_wins.1 Configuration.fresh _ (by decide),
   C9_first_insertion_wins.2 Configuration.fresh (by decide)⟩

/-- C10: a default-constructed Configuration never contains an
integer-typed item: no catalog entry declares an integer default, and so
CONFIGURATION_INTEGER_TYPE is never assigned by set_defaults (the
public facade declares no integer accessor either; that is a fact about
the header's declarations, checked by inspection). -/
theorem C10_no_integer_items :
    (catalog.all
      (fun e => !(e.2.typeOf == ConfigurationDataTypes.CONFIGURATION_INTEGER_TYPE))) = true ∧
    ∀ k : configuration_keys,
      (Configuration.fresh.get_item k).toOption.map ConfigurationItem.type
        ≠ some .CONFIGURATION_INTEGER_TYPE := by
  decide

/-- C2 counterexample: a wrongly-typed write on the fresh boolean item
fails, but with a ValueError (message "type does not match"), not with an
error of the distinct TypeMismatch kind claimed. -/
theorem C2_counterexample :
    (boolItem.set_double 1).2 = some (.ValueError "type does not match") ∧
    (boolItem.set_double 1).2.map CPError.isTypeMismatch = some false := by
  decide

/-- C2 amended: for every item, any typed write (set_bool, set_integer,
set_double, set_string) or typed read (the bool, double and string cast
operators — the class has no integer cast) whose type differs from the
item's fixed tag fails with ValueError("type does not match") and leaves
the item untouched; the tag never changes; a matching-type write always
succeeds, and the written value is returned by the next matching-type
read. -/
theorem C2_type_discipline :
    ∀ (it : ConfigurationItem) (v : TypedValue),
      ((it.write v).1.type = it.type) ∧
      (v.typeOf ≠ it.type →
        it.write v = (it, some (.ValueError "type does not match"))) ∧
      (v.typeOf = it.type →
        (it.write v).2 = none ∧ readsBack (it.write v).1 v) ∧
      (it.type ≠ .CONFIGURATION_BOOL_TYPE →
        it.cast_bool = .error (.ValueError "type does not match")) ∧
      (it.type ≠ .CONFIGURATION_DOUBLE_TYPE →
        it.cast_double = .error (.ValueError "type does not match")) ∧
      (it.type ≠ .CONFIGURATION_STRING_TYPE →
        it.cast_string = .error (.ValueError "type does not match")) := by
  intro it v
  obtain ⟨t, vd, vb, vi, vs, k⟩ := it
  cases t <;> cases v <;>
    simp [ConfigurationItem.write, ConfigurationItem.set_bool,
      ConfigurationItem.set_integer, ConfigurationItem.set_double,
      ConfigurationItem.set_string, ConfigurationItem.check_data_type,
      ConfigurationItem.cast_bool, ConfigurationItem.cast_double,
      ConfigurationItem.cast_string, TypedValue.typeOf, readsBack]

/-- Witness for C2 on the fresh boolean item: a double write fails with
the ValueError, a boolean write succeeds and is returned by the boolean
cast, and the double cast fails. -/
theorem C2_witness :
    (boolItem.write (.tdouble 1)
      = (boolItem, some (.ValueError "type does not match"))) ∧
    ((boolItem.write (.tbool false)).2 = none ∧
      readsBack (boolItem.write (.tbool false)).1 (.tbool false)) ∧
    boolItem.cast_double = .error (.ValueError "type does not match") :=
  ⟨(C2_type_discipline boolItem (.tdouble 1)).2.1 (by decide),
   (C2_type_discipline boolItem (.tbool false)).2.2.1 (by decide),
   (C2_type_discipline boolItem (.tbool false)).2.2.2.2.1 (by decide)⟩

/-- C3: set_from_json on a Double-typed item accepts a JSON integer and
widens it to double (importing the JSON integer 2 into the fresh item of
the double-typed key MAXIMUM_TABLE_DIRECTORY_SIZE_IN_GB yields the double
value 2.0), while for Bool-, Integer-, and String-typed items the JSON
value's type must match the item's tag exactly, failing with ValueError
otherwise. -/
theorem C3_double_widening :
    (∃ it, Configuration.fresh.get_item .MAXIMUM_TABLE_DIRECTORY_SIZE_IN_GB
        = .ok it ∧
      (it.set_from_json (.jint 2)).2 = none ∧
      (it.set_from_json (.jint 2)).1.cell
        = (.MAXIMUM_TABLE_DIRECTORY_SIZE_IN_GB,
           .CONFIGURATION_DOUBLE_TYPE, .cdouble 2)) ∧
    ∀ (it : ConfigurationItem) (j : Json),
      (it.type = .CONFIGURATION_DOUBLE_TYPE → j.IsInt →
        (it.set_from_json j).2 = none ∧
        (it.set_from_json j).1.v_double = (j.GetInt : Rat)) ∧
      (it.type = .CONFIGURATION_BOOL_TYPE →
        (j.IsBool → (it.set_from_json j).2 = none) ∧
        (¬ j.IsBool →
          (it.set_from_json j).2.map CPError.isValueError = some true)) ∧
      (it.type = .CONFIGURATION_INTEGER_TYPE →
        (j.IsInt → (it.set_from_json j).2 = none) ∧
        (¬ j.IsInt →
          (it.set_from_json j).2.map CPError.isValueError = some true)) ∧
      (it.type = .CONFIGURATION_STRING_TYPE →
        (j.IsString → (it.set_from_json j).2 = none) ∧
        (¬ j.IsString →
          (it.set_from_json j).2.map CPError.isValueError = some true)) := by
  refine ⟨⟨_, rfl, rfl, rfl⟩, ?_⟩
  intro it j
  obtain ⟨t, vd, vb, vi, vs, k⟩ := it
  cases t <;> cases j <;>
    simp [ConfigurationItem.set_from_json, Json.IsBool, Json.IsInt,
      Json.IsDouble, Json.IsString, Json.GetInt, CPError.isValueError]

/-- Witness for C3: the fresh double item accepts the JSON integer 2, and
the fresh boolean item rejects a JSON null as a ValueError. -/
theorem C3_witness :
    ((doubleItem.set_from_json (.jint 2)).2 = none ∧
      (doubleItem.set_from_json (.jint 2)).1.v_double
        = ((Json.jint 2).GetInt : Rat)) ∧
    (boolItem.set_from_json .jnull).2.map CPError.isValueError = some true :=
  ⟨(C3_double_widening.2 doubleItem (.jint 2)).1 (by decide) (by decide),
   ((C3_double_widening.2 boolItem .jnull).2.1 (by decide)).2 (by decide)⟩

/-- C6 counterexample: add_to_json on an item carrying the sentinel
undefined tag fails with a default-constructed ValueError (empty
message), not with an error of the distinct InternalError kind claimed. -/
theorem C6_counterexample :
    undefinedItem.add_to_json = .error (.ValueError "") ∧
    failedInternal undefinedItem.add_to_json = false := by
  decide

/-- C6 amended: converting an item to a JSON member fails with a
default-constructed ValueError (not InternalError — the header throws
plain ValueError()) when the item's tag is the sentinel undefined tag,
and succeeds for every properly constructed item, producing a member
named with the key's canonical string whose JSON type mirrors the tag
(bool to boolean, int to number, double to number, string to string). -/
theorem C6_add_to_json_mirrors :
    ∀ it : ConfigurationItem,
      (it.type = .CONFIGURATION_NOT_DEFINED_TYPE →
        it.add_to_json = .error (.ValueError "")) ∧
      (it.type.isValueType →
        ∃ j, it.add_to_json = .ok (config_key_to_string it.key, j) ∧
          mirrorsTag it.type j) := by
  intro it
  obtain ⟨t, vd, vb, vi, vs, k⟩ := it
  cases t <;>
    simp [ConfigurationItem.add_to_json, ConfigurationDataTypes.isValueType,
      mirrorsTag, Json.IsBool, Json.IsNumber, Json.IsInt, Json.IsDouble,
      Json.IsString]

/-- Witness for C6: the sentinel-tagged item fails with the ValueError,
and the fresh boolean item exports a mirroring member. -/
theorem C6_witness :
    undefinedItem.add_to_json = .error (.ValueError "") ∧
    ∃ j, boolItem.add_to_json = .ok (config_key_to_string boolItem.key, j) ∧
      mirrorsTag boolItem.type j :=
  ⟨(C6_add_to_json_mirrors undefinedItem).1 (by decide),
   (C6_add_to_json_mirrors boolItem).2 (by decide)⟩

/-- A list starting with `xs` admits `xs` as an initial segment. -/
theorem leadsChars_append (xs ys : List Char) :
    leadsChars xs (xs ++ ys) = true := by
  induction xs with
  | nil => rfl
  | cons a as ih => simp [leadsChars, ih]

/-- An initial segment occurs as a run. -/
theorem occursIn_of_leads (xs l : List Char) (h : leadsChars xs l = true) :
    occursIn xs l = true := by
  cases l <;> simp [occursIn, h]

/-- A run in the tail is a run. -/
theorem occursIn_cons (xs cs : List Char) (c : Char)
    (h : occursIn xs cs = true) : occursIn xs (c :: cs) = true := by
  simp [occursIn, h]

/-- A list occurs as a run in any surrounding of itself. -/
theorem occursIn_append (xs bs : List Char) :
    ∀ as : List Char, occursIn xs (as ++ (xs ++ bs)) = true := by
  intro as
  induction as with
  | nil => exact occursIn_of_leads xs _ (leadsChars_append xs bs)
  | cons c cs ih => exact occursIn_cons xs _ c ih

/-- A middle factor of a string concatenation is a substring of it. -/
theorem strContains_middle (a b c : String) :
    strContains (a ++ b ++ c) b = true := by
  have h : (a ++ b ++ c).toList = a.toList ++ (b.toList ++ c.toList) := by
    simp [String.toList, String.data_append]
  rw [strContains, h]
  exact occursIn_append b.toList c.toList a.toList

/-- C8 counterexample: the ValueError produced by set_from_json's boolean
branch on the fresh NORMALIZE_GAS_CONSTANTS item carries the fixed
message "Input is not boolean", which neither names the offending key nor
contains the rejected JSON fragment "3". -/
theorem C8_counterexample :
    (boolItem.set_from_json (.jint 3)).2
      = some (.ValueError "Input is not boolean") ∧
    strContains "Input is not boolean" "NORMALIZE_GAS_CONSTANTS" = false ∧
    strContains "Input is not boolean" "3" = false := by
  decide

/-- C8 amended: the error messages of the core are fixed per call-site
and name no key: set_from_json's bool, integer and string branches throw
ValueError with the constant messages "Input is not boolean", "Input is
not integer" and "Input is not string", check_data_type with "type does
not match", and get_item with "invalid item", all independent of the
offending key; only set_from_json's double branch embeds the rejected
JSON fragment in its ValueError message. -/
theorem C8_error_messages :
    ∀ (it : ConfigurationItem) (j : Json) (c : Configuration)
      (k : configuration_keys) (t : ConfigurationDataTypes),
      (it.type = .CONFIGURATION_BOOL_TYPE → ¬ j.IsBool →
        (it.set_from_json j).2 = some (.ValueError "Input is not boolean")) ∧
      (it.type = .CONFIGURATION_INTEGER_TYPE → ¬ j.IsInt →
        (it.set_from_json j).2 = some (.ValueError "Input is not integer")) ∧
      (it.type = .CONFIGURATION_STRING_TYPE → ¬ j.IsString →
        (it.set_from_json j).2 = some (.ValueError "Input is not string")) ∧
      (it.type = .CONFIGURATION_DOUBLE_TYPE → ¬ j.IsDouble → ¬ j.IsInt →
        ∃ msg, (it.set_from_json j).2 = some (.ValueError msg) ∧
          strContains msg (cpjsonToString j) = true) ∧
      (t ≠ it.type →
        it.check_data_type t = some (.ValueError "type does not match")) ∧
      (mapFind c.items k = none →
        c.get_item k = .error (.ValueError "invalid item")) := by
  intro it j c k t
  refine ⟨?_, ?_, ?_, ?_, ?_, ?_⟩
  · intro hty hj
    obtain ⟨t0, vd, vb, vi, vs, k0⟩ := it
    cases t0 <;> simp_all [ConfigurationItem.set_from_json]
  · intro hty hj
    obtain ⟨t0, vd, vb, vi, vs, k0⟩ := it
    cases t0 <;> simp_all [ConfigurationItem.set_from_json]
  · intro hty hj
    obtain ⟨t0, vd, vb, vi, vs, k0⟩ := it
    cases t0 <;> simp_all [ConfigurationItem.set_from_json]
  · intro hty hjd hji
    refine ⟨"Input [" ++ cpjsonToString j ++
      "] is not double (or something that can be cast to double)", ?_, ?_⟩
    · obtain ⟨t0, vd, vb, vi, vs, k0⟩ := it
      cases t0 <;> simp_all [ConfigurationItem.set_from_json]
    · exact strContains_middle "Input [" (cpjsonToString j)
        "] is not double (or something that can be cast to double)"
  · intro hne
    simp [ConfigurationItem.check_data_type, hne]
  · intro habs
    simp [Configuration.get_item, habs]

/-- Witness for C8 at concrete inputs: the boolean branch message, the
double branch message on a string input, the mismatch message and the
absent-key message. -/
theorem C8_witness :
    ((boolItem.set_from_json (.jint 3)).2
      = some (.ValueError "Input is not boolean")) ∧
    (∃ msg, (doubleItem.set_from_json (.jstring "abc")).2
      = some (.ValueError msg) ∧
      strContains msg (cpjsonToString (.jstring "abc")) = true) ∧
    (boolItem.check_data_type .CONFIGURATION_STRING_TYPE
      = some (.ValueError "type does not match")) ∧
    ((Configuration.mk []).get_item .CRITICAL_WITHIN_1UK
      = .error (.ValueError "invalid item")) :=
  ⟨(C8_error_messages boolItem (.jint 3) (Configuration.mk [])
      .CRITICAL_WITHIN_1UK .CONFIGURATION_STRING_TYPE).1 (by decide) (by decide),
   (C8_error_messages doubleItem (.jstring "abc") (Configuration.mk [])
      .CRITICAL_WITHIN_1UK .CONFIGURATION_STRING_TYPE).2.2.2.1
      (by decide) (by decide) (by decide),
   (C8_error_messages boolItem (.jint 3) (Configuration.mk [])
      .CRITICAL_WITHIN_1UK .CONFIGURATION_STRING_TYPE).2.2.2.2.1 (by decide),
   (C8_error_messages boolItem (.jint 3) (Configuration.mk [])
      .CRITICAL_WITHIN_1UK .CONFIGURATION_STRING_TYPE).2.2.2.2.2 (by decide)⟩

/-! Infrastructure for the round-trip law (C4). -/

/-- Replacing at one key does not disturb lookups of other keys. -/
theorem mapFind_replace_ne (m : ItemMap) (k k2 : configuration_keys)
    (v : ConfigurationItem) (h : k2 ≠ k) :
    mapFind (mapReplace m k v) k2 = mapFind m k2 := by
  induction m with
  | nil => rfl
  | cons kv rest ih =>
    by_cases hk : kv.1 = k
    · simp [mapReplace, hk, mapFind, Ne.symm h]
    · simp [mapReplace, hk, mapFind, ih]

/-- Replacing at a mapped key makes lookup there return the new item. -/
theorem mapFind_replace_eq (m : ItemMap) (k : configuration_keys)
    (v it : ConfigurationItem) (h : mapFind m k = some it) :
    mapFind (mapReplace m k v) k = some v := by
  induction m with
  | nil => simp [mapFind] at h
  | cons kv rest ih =>
    by_cases hk : kv.1 = k
    · simp [mapReplace, hk, mapFind]
    · simp [mapFind, hk] at h
      simp [mapReplace, hk, mapFind, ih h]

/-- On a map with distinct keys, every entry is what lookup finds. -/
theorem mapFind_of_mem_nodup (m : ItemMap)
    (hnd : (m.map (fun kv => kv.1)).Nodup) :
    ∀ kv ∈ m, mapFind m kv.1 = some kv.2 := by
  induction m with
  | nil => intro kv h; simp at h
  | cons kv0 rest ih =>
    intro kv hmem
    rw [List.map_cons, List.nodup_cons] at hnd
    rcases List.mem_cons.mp hmem with heq | htail
    · subst heq; simp [mapFind]
    · have hne : kv0.1 ≠ kv.1 := by
        intro hh
        refine hnd.1 ?_
        rw [hh]
        exact List.mem_map_of_mem (fun kv => kv.1) htail
      simp [mapFind, hne, ih hnd.2 kv htail]

/-- A key appearing in the key column of a map is mapped. -/
theorem mapFind_isSome_of_mem (m : ItemMap) (k : configuration_keys)
    (h : k ∈ m.map (fun kv => kv.1)) : ∃ it, mapFind m k = some it := by
  induction m with
  | nil => simp at h
  | cons kv rest ih =>
    rw [List.map_cons] at h
    by_cases hk : kv.1 = k
    · exact ⟨kv.2, by simp [mapFind, hk]⟩
    · have hk2 : k ∈ rest.map (fun kv => kv.1) := by
        rcases List.mem_cons.mp h with heq | ht
        · exact absurd heq.symm hk
        · exact ht
      obtain ⟨it, hit⟩ := ih hk2
      exact ⟨it, by simp [mapFind, hk, hit]⟩

/-- set_bool preserves the item's key and type tag. -/
theorem set_bool_skeleton (it : ConfigurationItem) (b : Bool) :
    (it.set_bool b).1.key = it.key ∧ (it.set_bool b).1.type = it.type := by
  cases h : it.check_data_type .CONFIGURATION_BOOL_TYPE <;>
    simp [ConfigurationItem.set_bool, h]

/-- set_double preserves the item's key and type tag. -/
theorem set_double_skeleton (it : ConfigurationItem) (d : Rat) :
    (it.set_double d).1.key = it.key ∧ (it.set_double d).1.type = it.type := by
  cases h : it.check_data_type .CONFIGURATION_DOUBLE_TYPE <;>
    simp [ConfigurationItem.set_double, h]

/-- set_string preserves the item's key and type tag. -/
theorem set_string_skeleton (it : ConfigurationItem) (s : String) :
    (it.set_string s).1.key = it.key ∧ (it.set_string s).1.type = it.type := by
  cases h : it.check_data_type .CONFIGURATION_STRING_TYPE <;>
    simp [ConfigurationItem.set_string, h]

/-- Replacing a found entry by an item of the same key and type leaves
the registry skeleton unchanged. -/
theorem shape_mapReplace (m : ItemMap) (k : configuration_keys)
    (v it : ConfigurationItem) (hfind : mapFind m k = some it)
    (hk : v.key = it.key) (ht : v.type = it.type) :
    (mapReplace m k v).map (fun kv => (kv.1, kv.2.key, kv.2.type))
      = m.map (fun kv => (kv.1, kv.2.key, kv.2.type)) := by
  induction m with
  | nil => simp [mapFind] at hfind
  | cons kv0 rest ih =>
    by_cases hh : kv0.1 = k
    · simp [mapFind, hh] at hfind
      simp [mapReplace, hh, hfind ▸ hk, hfind ▸ ht]
    · simp [mapFind, hh] at hfind
      simp [mapReplace, hh, ih hfind]

/-- Shared skeleton-preservation argument for the three facade setters:
each is get_item followed by a key- and tag-preserving step and a
write-back. -/
theorem shape_set_config_generic (c : Configuration) (k : configuration_keys)
    (step : ConfigurationItem → ConfigurationItem × Option CPError)
    (hstep : ∀ it, (step it).1.key = it.key ∧ (step it).1.type = it.type) :
    shape (match c.get_item k with
           | .error e => (c, some e)
           | .ok it =>
             match step it with
             | (_, some e) => (c, some e)
             | (it2, none) =>
               ({ items := mapReplace c.items k it2 }, none)).1 = shape c := by
  cases hget : c.get_item k with
  | error e => rfl
  | ok it =>
    show shape (match step it with
           | (_, some e) => (c, some e)
           | (it2, none) =>
             ({ items := mapReplace c.items k it2 }, none)).1 = shape c
    have hfind : mapFind c.items k = some it := by
      unfold Configuration.get_item at hget
      cases hf : mapFind c.items k <;> rw [hf] at hget <;> simp_all
    cases hs : step it with
    | mk it2 err =>
      cases err with
      | some e => rfl
      | none =>
        show shape ({ items := mapReplace c.items k it2 } : Configuration)
          = shape c
        have hsk := hstep it
        rw [hs] at hsk
        exact shape_mapReplace c.items k it2 it hfind hsk.1 hsk.2

/-- A facade write never changes the registry skeleton: a failed write
leaves the registry alone and a successful one replaces an item by one of
the same key and tag. -/
theorem shape_applyWrite (c : Configuration) (w : ConfigWrite) :
    shape (applyWrite c w) = shape c := by
  cases w with
  | wbool k b =>
    exact shape_set_config_generic c k (fun it => it.set_bool b)
      (fun it => set_bool_skeleton it b)
  | wdouble k d =>
    exact shape_set_config_generic c k (fun it => it.set_double d)
      (fun it => set_double_skeleton it d)
  | wstring k str =>
    exact shape_set_config_generic c k (fun it => it.set_string str)
      (fun it => set_string_skeleton it str)

/-- A sequence of facade writes never changes the registry skeleton. -/
theorem shape_applyWrites (ws : List ConfigWrite) :
    ∀ c : Configuration, shape (applyWrites c ws) = shape c := by
  induction ws with
  | nil => intro c; rfl
  | cons w rest ih =>
    intro c
    show shape (applyWrites (applyWrite c w) rest) = shape c
    rw [ih (applyWrite c w), shape_applyWrite]

/-- Name resolution inverts naming: the canonical string of every key
resolves back to that key. -/
theorem string_to_key_round (k : configuration_keys) :
    config_string_to_key (config_key_to_string k) = some k := by
  cases k <;> decide

/-- Item-level transfer: exporting an item of a value kind and feeding
the produced JSON value to set_from_json on any item of the same key and
tag succeeds and reproduces the exported item's observable cell. -/
theorem add_set_transfer (it it2 : ConfigurationItem)
    (hvt : it.type.isValueType = true) (hty : it2.type = it.type)
    (hkey : it2.key = it.key) :
    ∃ j, it.add_to_json = .ok (config_key_to_string it.key, j) ∧
      ∃ it3, it2.set_from_json j = (it3, none) ∧
        it3.key = it2.key ∧ it3.type = it2.type ∧ it3.cell = it.cell := by
  obtain ⟨t, vd, vb, vi, vs, k⟩ := it
  obtain ⟨t2, vd2, vb2, vi2, vs2, k2⟩ := it2
  simp only at hty hkey
  subst hty; subst hkey
  cases t2 with
  | CONFIGURATION_NOT_DEFINED_TYPE => simp [ConfigurationDataTypes.isValueType] at hvt
  | CONFIGURATION_ENDOFLIST_TYPE => simp [ConfigurationDataTypes.isValueType] at hvt
  | CONFIGURATION_BOOL_TYPE =>
    exact ⟨.jbool vb, rfl, _, rfl, rfl, rfl, rfl⟩
  | CONFIGURATION_INTEGER_TYPE =>
    exact ⟨.jint vi, rfl, _, rfl, rfl, rfl, rfl⟩
  | CONFIGURATION_DOUBLE_TYPE =>
    exact ⟨.jdouble vd, rfl, _, rfl, rfl, rfl, rfl⟩
  | CONFIGURATION_STRING_TYPE =>
    exact ⟨.jstring vs, rfl, _, rfl, rfl, rfl, rfl⟩

/-- Every entry of the fresh registry is stored under its own key and
carries a value-kind tag. -/
theorem fresh_entries_wf :
    ∀ kv ∈ Configuration.fresh.items,
      kv.2.key = kv.1 ∧ kv.2.type.isValueType = true := by
  decide

/-- The fresh registry's keys are pairwise distinct. -/
theorem fresh_keys_nodup :
    (Configuration.fresh.items.map (fun kv => kv.1)).Nodup := by
  decide

/-- Every key occurs in the fresh registry's key column. -/
theorem fresh_keys_total :
    ∀ k : configuration_keys,
      k ∈ Configuration.fresh.items.map (fun kv => kv.1) := by
  decide

/-- A key outside a map's key column is unmapped. -/
theorem mapFind_eq_none (m : ItemMap) (k : configuration_keys)
    (h : k ∉ m.map (fun kv => kv.1)) : mapFind m k = none := by
  induction m with
  | nil => rfl
  | cons kv rest ih =>
    rw [List.map_cons] at h
    have h1 : kv.1 ≠ k := fun hh => h (by rw [hh]; exact List.mem_cons_self _ _)
    have h2 : k ∉ rest.map (fun kv => kv.1) :=
      fun hm => h (List.mem_cons_of_mem _ hm)
    simp [mapFind, h1, ih h2]

/-- Walk lemma for the round trip: exporting a well-keyed, well-typed,
duplicate-free item list succeeds, and importing the produced members
into a registry that maps each listed key to an item of the listed type
succeeds, reproduces every listed entry's observable cell, and leaves
unlisted keys untouched. -/
theorem import_export_aux :
    ∀ (l : ItemMap) (c2 : Configuration),
      (∀ kv ∈ l, kv.2.key = kv.1) →
      (∀ kv ∈ l, kv.2.type.isValueType = true) →
      (∀ kv ∈ l, ∃ it2, mapFind c2.items kv.1 = some it2 ∧
        it2.type = kv.2.type ∧ it2.key = kv.1) →
      (l.map (fun kv => kv.1)).Nodup →
      ∃ doc, exportItems l = .ok doc ∧
        (c2.import_json doc).2 = none ∧
        (∀ k it, mapFind l k = some it →
          (mapFind (c2.import_json doc).1.items k).map ConfigurationItem.cell
            = some it.cell) ∧
        (∀ k, mapFind l k = none →
          mapFind (c2.import_json doc).1.items k = mapFind c2.items k) := by
  intro l
  induction l with
  | nil =>
    intro c2 _ _ _ _
    refine ⟨[], rfl, rfl, ?_, ?_⟩
    · intro k it h; simp [mapFind] at h
    · intro k _; rfl
  | cons kv rest ih =>
    intro c2 hkeys hvt hfind hnd
    have hmem0 : kv ∈ kv :: rest := List.mem_cons_self _ _
    obtain ⟨it2, hit2find, hit2ty, hit2key⟩ := hfind kv hmem0
    have hkey0 : kv.2.key = kv.1 := hkeys kv hmem0
    obtain ⟨j, hexp, it3, hset, hit3key, hit3ty, hcell⟩ :=
      add_set_transfer kv.2 it2 (hvt kv hmem0) hit2ty
        (hit2key.trans hkey0.symm)
    rw [hkey0] at hexp
    rw [List.map_cons, List.nodup_cons] at hnd
    have hfresh2 :
        ∀ kv2 ∈ rest, ∃ u,
          mapFind (mapReplace c2.items kv.1 it3) kv2.1 = some u ∧
          u.type = kv2.2.type ∧ u.key = kv2.1 := by
      intro kv2 hm
      obtain ⟨u, hu, huty, hukey⟩ := hfind kv2 (List.mem_cons_of_mem _ hm)
      have hne : kv2.1 ≠ kv.1 := by
        intro hh
        exact hnd.1 (hh ▸ List.mem_map_of_mem (fun kv => kv.1) hm)
      exact ⟨u, by rw [mapFind_replace_ne _ _ _ _ hne]; exact hu, huty, hukey⟩
    obtain ⟨docRest, hexpRest, himpRest, hpresent, habsent⟩ :=
      ih ⟨mapReplace c2.items kv.1 it3⟩
        (fun kv2 hm => hkeys kv2 (List.mem_cons_of_mem _ hm))
        (fun kv2 hm => hvt kv2 (List.mem_cons_of_mem _ hm))
        hfresh2 hnd.2
    have hstep : c2.import_json ((config_key_to_string kv.1, j) :: docRest)
        = Configuration.import_json ⟨mapReplace c2.items kv.1 it3⟩ docRest := by
      simp [Configuration.import_json, string_to_key_round,
        Configuration.get_item, hit2find, hset]
    refine ⟨(config_key_to_string kv.1, j) :: docRest, ?_, ?_, ?_, ?_⟩
    · simp [exportItems, hexp, hexpRest]
    · rw [hstep]; exact himpRest
    · intro k it hfound
      by_cases hk : kv.1 = k
      · subst hk
        have hit : it = kv.2 := by simpa [mapFind] using hfound.symm
        subst hit
        have hnotin : mapFind rest kv.1 = none :=
          mapFind_eq_none rest kv.1 hnd.1
        have hfin := habsent kv.1 hnotin
        rw [hstep, hfin]
        have : mapFind (mapReplace c2.items kv.1 it3) kv.1 = some it3 :=
          mapFind_replace_eq c2.items kv.1 it3 it2 hit2find
        rw [this]
        simp [hcell]
      · have hfound2 : mapFind rest k = some it := by
          simpa [mapFind, hk] using hfound
        rw [hstep]
        exact hpresent k it hfound2
    · intro k hnone
      have hk : ¬ kv.1 = k := by
        intro hh
        rw [mapFind, if_pos hh] at hnone
        exact Option.noConfusion hnone
      have hnone2 : mapFind rest k = none := by
        simpa [mapFind, hk] using hnone
      rw [hstep, habsent k hnone2,
        mapFind_replace_ne c2.items kv.1 k it3 (fun hh => hk hh.symm)]

/-- A registry with the fresh skeleton has, entry for entry, a fresh
counterpart of the same map key, item key and tag. -/
theorem shape_mem_transfer {c : Configuration}
    (h : shape c = shape Configuration.fresh) :
    ∀ kv ∈ c.items, ∃ kv' ∈ Configuration.fresh.items,
      kv'.1 = kv.1 ∧ kv'.2.key = kv.2.key ∧ kv'.2.type = kv.2.type := by
  intro kv hmem
  have hmem2 : (kv.1, kv.2.key, kv.2.type) ∈ shape Configuration.fresh := by
    rw [← h]
    exact List.mem_map_of_mem _ hmem
  obtain ⟨kv', hmem', heq⟩ := List.mem_map.mp hmem2
  simp only [Prod.mk.injEq] at heq
  exact ⟨kv', hmem', heq.1, heq.2.1, heq.2.2⟩

/-- A registry with the fresh skeleton has the fresh key column. -/
theorem keys_of_shape {c : Configuration}
    (h : shape c = shape Configuration.fresh) :
    c.items.map (fun kv => kv.1)
      = Configuration.fresh.items.map (fun kv => kv.1) := by
  have h2 := congrArg
    (List.map (fun e : configuration_keys ×
      configuration_keys × ConfigurationDataTypes => e.1)) h
  simpa [shape, List.map_map, Function.comp] using h2

/-- C4: round-trip law. At the item level, set_from_json applied to the
JSON value produced by add_to_json restores an equal (key, type, value)
cell. At the registry level, for any sequence of typed facade writes
applied to a fresh registry, exporting the registry to a JSON document
and importing that document into a second fresh default-initialized
registry succeeds and reproduces the exact observable cell of every key
present at export time (text serialization and parsing in between are
the external JSON library's identity round trip, out of scope per spec
section 1). -/
theorem C4_round_trip :
    (∀ it : ConfigurationItem, it.type.isValueType →
      ∃ j, it.add_to_json = .ok (config_key_to_string it.key, j) ∧
        ∃ it3, it.set_from_json j = (it3, none) ∧ it3.cell = it.cell) ∧
    ∀ ws : List ConfigWrite,
      ∃ doc,
        (applyWrites Configuration.fresh ws).export_json = .ok doc ∧
        (Configuration.fresh.import_json doc).2 = none ∧
        ∀ k : configuration_keys,
          (mapFind (Configuration.fresh.import_json doc).1.items k).map
              ConfigurationItem.cell
            = (mapFind (applyWrites Configuration.fresh ws).items k).map
                ConfigurationItem.cell := by
  constructor
  · intro it hvt
    obtain ⟨j, hexp, it3, hset, _, _, hcell⟩ :=
      add_set_transfer it it hvt rfl rfl
    exact ⟨j, hexp, it3, hset, hcell⟩
  · intro ws
    have hsh : shape (applyWrites Configuration.fresh ws)
        = shape Configuration.fresh := shape_applyWrites ws Configuration.fresh
    revert hsh
    generalize applyWrites Configuration.fresh ws = c
    intro hsh
    have hkeys : ∀ kv ∈ c.items, kv.2.key = kv.1 := by
      intro kv hm
      obtain ⟨kv', hm', h1, h2, _⟩ := shape_mem_transfer hsh kv hm
      rw [← h2, (fresh_entries_wf kv' hm').1, h1]
    have hvt : ∀ kv ∈ c.items, kv.2.type.isValueType = true := by
      intro kv hm
      obtain ⟨kv', hm', _, _, h3⟩ := shape_mem_transfer hsh kv hm
      rw [← h3]
      exact (fresh_entries_wf kv' hm').2
    have hkeyseq := keys_of_shape hsh
    have hnd : (c.items.map (fun kv => kv.1)).Nodup := by
      rw [hkeyseq]; exact fresh_keys_nodup
    have hfind : ∀ kv ∈ c.items, ∃ it2,
        mapFind Configuration.fresh.items kv.1 = some it2 ∧
        it2.type = kv.2.type ∧ it2.key = kv.1 := by
      intro kv hm
      obtain ⟨kv', hm', h1, _, h3⟩ := shape_mem_transfer hsh kv hm
      refine ⟨kv'.2, ?_, h3, ?_⟩
      · rw [← h1]
        exact mapFind_of_mem_nodup Configuration.fresh.items
          fresh_keys_nodup kv' hm'
      · rw [← h1]
        exact (fresh_entries_wf kv' hm').1
    obtain ⟨doc, hexp, himp, hpres, _⟩ :=
      import_export_aux c.items Configuration.fresh hkeys hvt hfind hnd
    refine ⟨doc, hexp, himp, ?_⟩
    intro k
    have hkmem : k ∈ c.items.map (fun kv => kv.1) := by
      rw [hkeyseq]; exact fresh_keys_total k
    obtain ⟨it, hit⟩ := mapFind_isSome_of_mem c.items k hkmem
    rw [hit, hpres k it hit]
    rfl

/-- Witness for C4: the item-level round trip at the fresh
NORMALIZE_GAS_CONSTANTS item, with its hypothesis discharged. -/
theorem C4_witness :
    ∃ j, boolItem.add_to_json
        = .ok (config_key_to_string boolItem.key, j) ∧
      ∃ it3, boolItem.set_from_json j = (it3, none) ∧
        it3.cell = boolItem.cell :=
  C4_round_trip.1 boolItem (by decide)
